import Mathlib

/-!
Shallow embedding of the authentication/authorization core of `escalopa/go-bank`:
the JWT token maker (`token` package, `src/unnamed/part_001`), the gin
authorization middleware (`src/api/handlers/middleware.go`), and the
owner-scoped account-deletion handler exercised by `TestDeleteAccount`
(`src/unnamed/part_000`).

Time is modelled as `Int` (Unix-style instants); durations are `Int`.
Cryptography is modelled symbolically: an HMAC signature is the formal record
of the algorithm, the key and the signed claims, compared by equality, so a
signature verifies exactly when it was produced with the same algorithm, key
and claims (a perfect MAC).
-/

namespace GoBank

/-- Errors of the `token` package.  `src/unnamed/part_001` references
`ErrTokenExpired` and `ErrTokenInvalid` (their declarations are not under
`src/`, only their use sites are).  `invalidIdentity` is the payload-creation
failure the spec calls `InvalidIdentity`. -/
inductive TokenErr where
  | expired
  | invalid
  | invalidIdentity
  deriving DecidableEq, Repr

/-- The claims structure embedded in every token.  The field `ExpireAt` is the
name read by `middleware.go` (`payload.ExpireAt`); the remaining field names
follow the spec's data model (unique id, identity, issued-at, expires-at). -/
structure Payload where
  ID : Nat
  Username : String
  IssuedAt : Int
  ExpireAt : Int
  deriving DecidableEq, Repr

/-- Modelled from the spec: `NewPayload(identity, duration)` is not under
`src/` (only its callers are).  Per §4.1 it generates a fresh unique id, sets
`issuedAt = now`, `expiresAt = now + duration`, and fails with
`InvalidIdentity` if the identity is empty.  The fresh random id and the clock
are injected as parameters `freshId` and `now`; the environment failure
`IdGenerationError` (the random source failing) is outside this model. -/
def NewPayload (username : String) (duration : Int) (now : Int) (freshId : Nat) :
    Except TokenErr Payload :=
  if username = "" then .error .invalidIdentity
  else .ok ⟨freshId, username, now, now + duration⟩

/-- Modelled from the spec: `Payload.Valid()` is not under `src/`.  Per §4.1 it
returns `TokenExpired` if `now > expiresAt`, otherwise ok (`none`). -/
def Payload.Valid (p : Payload) (now : Int) : Option TokenErr :=
  if p.ExpireAt < now then some .expired else none

/-! ### Model of the `golang-jwt/jwt/v4` library

`VerifyToken` delegates to `jwt.ParseWithClaims`; its behaviour on hostile
inputs is the library's, so the relevant slice of `golang-jwt/jwt/v4` is
embedded here: the signing-method registry (HMAC, ECDSA, RSA, RSA-PSS, EdDSA,
"none"), the key-function hook, claims validation, and signature verification
with a `[]byte` key. -/

/-- The JWS algorithms registered by `golang-jwt/jwt/v4`, as claimed by a
token's header.  `algNone` is the unsecured `"none"` algorithm. -/
inductive Alg where
  | HS256 | HS384 | HS512
  | ES256 | ES384 | ES512
  | RS256 | RS384 | RS512
  | PS256 | PS384 | PS512
  | EdDSA
  | algNone
  deriving DecidableEq, Repr

/-- The HMAC family (`jwt.SigningMethodHMAC`). -/
def Alg.isHMAC : Alg → Bool
  | .HS256 | .HS384 | .HS512 => true
  | _ => false

/-- The ECDSA family (`jwt.SigningMethodECDSA`), the one family the source's
key function singles out. -/
def Alg.isECDSA : Alg → Bool
  | .ES256 | .ES384 | .ES512 => true
  | _ => false

/-- A symbolic signature value: the algorithm, key and claims it was computed
over.  Two signatures are the same JWS signature string iff these coincide. -/
structure Sig where
  alg : Alg
  key : String
  signed : Payload
  deriving DecidableEq, Repr

/-- Symbolic HMAC signing (`method.Sign` with a `[]byte` key). -/
def hmacSign (alg : Alg) (key : String) (claims : Payload) : Sig :=
  ⟨alg, key, claims⟩

/-- `method.Verify(signingString, signature, key)` where `key` is the `[]byte`
secret our key function supplies.  HMAC methods recompute the MAC and compare;
every non-HMAC method (ECDSA, RSA, RSA-PSS, EdDSA, `"none"`) rejects a
`[]byte` key (`ErrInvalidKeyType` / `NoneSignatureTypeDisallowedError`), so
verification fails for them. -/
def verifyWithByteKey (alg : Alg) (key : String) (claims : Payload) (sig : Sig) : Bool :=
  alg.isHMAC && decide (sig = hmacSign alg key claims)

/-- A token string as seen by `jwt.ParseWithClaims`: either it fails
structural parsing (`malformed`: wrong number of segments, undecodable
base64/JSON), or it decodes to a header algorithm, a claims payload and a
signature.  The base64/JSON encoding is injective, so well-formed strings are
identified with their decoded structure. -/
inductive TokenString where
  | malformed
  | wellFormed (alg : Alg) (claims : Payload) (sig : Sig)
  deriving DecidableEq, Repr

/-- The `*jwt.ValidationError` returned by `ParseWithClaims`, abstracted to
what `errors.Is` can observe: the wrapped inner error.
`signatureInvalid` covers every failure of `method.Verify` (its inner error is
a crypto/key-type error, never a `token` package error); in v4 a signature
failure overwrites `Inner` even when the claims were also invalid. -/
inductive VErr where
  | malformed
  | unverifiable (inner : TokenErr)
  | signatureInvalid
  | claimsInvalid (inner : TokenErr)
  deriving DecidableEq, Repr

/-- `errors.Is(verr, ErrTokenExpired)`: the validation error wraps the token
package's expiration error. -/
def VErr.isTokenExpired : VErr → Bool
  | .unverifiable .expired => true
  | .claimsInvalid .expired => true
  | _ => false

/-- `jwt.ParseWithClaims` (v4): structural parse; look up the key via
`keyFunc` (its error aborts as `ValidationErrorUnverifiable` wrapping it);
validate the claims (`Claims.Valid()`); verify the signature.  When signature
verification fails its error replaces the inner error, so the result is
`signatureInvalid` even for expired claims; with a valid signature a claims
error is returned wrapped; otherwise the parsed claims are returned. -/
def ParseWithClaims (keyFunc : Alg → Except TokenErr String) (now : Int)
    (s : TokenString) : Except VErr Payload :=
  match s with
  | .malformed => .error .malformed
  | .wellFormed alg claims sig =>
    match keyFunc alg with
    | .error e => .error (.unverifiable e)
    | .ok key =>
      if verifyWithByteKey alg key claims sig then
        match claims.Valid now with
        | some e => .error (.claimsInvalid e)
        | none => .ok claims
      else
        .error .signatureInvalid

/-! ### The JWT maker (`src/unnamed/part_001`) -/

def minSecretKeyLen : Nat := 32

structure JWTMaker where
  secretKey : String
  deriving DecidableEq, Repr

/-- `NewJWTMaker`: reject a secret shorter than `minSecretKeyLen` bytes with
an error (the source's message, typo included), otherwise return the maker.
Go's `len` on a string counts bytes, hence `utf8ByteSize`. -/
def NewJWTMaker (secretKey : String) : Except String JWTMaker :=
  if secretKey.utf8ByteSize < minSecretKeyLen then
    .error ("secretKet len is less than the min value " ++ toString minSecretKeyLen)
  else
    .ok ⟨secretKey⟩

/-- The key function `VerifyToken` passes to `jwt.ParseWithClaims`: reject a
token whose method is ECDSA with `ErrTokenInvalid`, otherwise hand the
symmetric secret to the library as a `[]byte` key. -/
def JWTMaker.keyFunc (m : JWTMaker) (alg : Alg) : Except TokenErr String :=
  if alg.isECDSA then .error .invalid else .ok m.secretKey

/-- `CreateToken(username)`: build a payload via `NewPayload`, then sign it
with `jwt.SigningMethodHS512` and the secret.  The source passes the package
constant `AccessTokenExpiration` (declared outside `src/`) as the duration;
it is taken here as the parameter `accessTokenExpiration` (the repository's
test-side maker interface takes the duration as an explicit argument, see
`src/api/middleware_test.go`). -/
def JWTMaker.CreateToken (m : JWTMaker) (username : String)
    (accessTokenExpiration : Int) (now : Int) (freshId : Nat) :
    Except TokenErr (TokenString × Payload) :=
  match NewPayload username accessTokenExpiration now freshId with
  | .error e => .error e
  | .ok payload =>
    .ok (.wellFormed .HS512 payload (hmacSign .HS512 m.secretKey payload), payload)

/-- `VerifyToken(token)`: run `jwt.ParseWithClaims` with `keyFunc`; on error,
return `ErrTokenExpired` when the validation error wraps it, and the generic
`ErrTokenInvalid` for every other failure; on success return the claims. -/
def JWTMaker.VerifyToken (m : JWTMaker) (now : Int) (token : TokenString) :
    Except TokenErr Payload :=
  match ParseWithClaims m.keyFunc now token with
  | .error verr =>
    if verr.isTokenExpired then .error .expired else .error .invalid
  | .ok payload => .ok payload

/-! ### The authorization middleware (`src/api/handlers/middleware.go`) -/

/-- `strings.Fields` helper: scan the characters, `cur` holding the current
field reversed; a whitespace character closes the current field. -/
def stringsFieldsAux (p : Char → Bool) : List Char → List Char → List String
  | [], cur => if cur.isEmpty then [] else [⟨cur.reverse⟩]
  | c :: cs, cur =>
    if p c then
      if cur.isEmpty then stringsFieldsAux p cs []
      else ⟨cur.reverse⟩ :: stringsFieldsAux p cs []
    else stringsFieldsAux p cs (c :: cur)

/-- Go's `strings.Fields`: the substrings separated by runs of whitespace. -/
def stringsFields (s : String) : List String :=
  stringsFieldsAux Char.isWhitespace s.data []

/-- Go's `strings.ToLower` (character-wise lowering). -/
def stringsToLower (s : String) : String :=
  ⟨s.data.map Char.toLower⟩

def authorizationTypeBearer : String := "bearer"

/-- What one pass of the middleware does to the gin context. -/
inductive MwStep where
  | abortWithStatusJSON (status : Nat) (errMsg : String)
  | setPayloadAndNext (payload : Payload)
  deriving DecidableEq, Repr

/-- `authMiddleware(tokenMaker)`: the per-request handler, over the maker's
`VerifyToken` (the `token.Maker` interface method, of type
`string → (*Payload, error)` with the payload nil exactly when the error is
non-nil, as in `src/unnamed/part_001`).

Steps, as in the source: empty header → 401 "authorization header not
provided"; fewer than two whitespace fields → 401 "invalid authorization
format"; lower-cased first field ≠ "bearer" → 401 "unsupported authorization
type <type>"; then `VerifyToken(fields[1])`.  Between the `VerifyToken` call
and the error check the source executes `log.Println(payload.ExpireAt)`;
when `VerifyToken` errors, `payload` is nil and this selector dereferences a
nil pointer — a run-time panic, modelled as the result `none`.  On success the
payload is attached to the context and the chain continues. -/
def authMiddleware (verifyToken : String → Except TokenErr Payload)
    (authorizationHeader : String) : Option MwStep :=
  if authorizationHeader.length = 0 then
    some (.abortWithStatusJSON 401 "authorization header not provided")
  else
    match stringsFields authorizationHeader with
    | field0 :: accessToken :: _ =>
      if stringsToLower field0 ≠ authorizationTypeBearer then
        some (.abortWithStatusJSON 401
          ("unsupported authorization type " ++ stringsToLower field0))
      else
        match verifyToken accessToken with
        | .error _ => none
        | .ok payload => some (.setPayloadAndNext payload)
    | _ => some (.abortWithStatusJSON 401 "invalid authorization format")

/-! ### The owner-scoped delete-account handler

The handler itself is not under `src/`; `src/unnamed/part_000` holds
`TestDeleteAccount`, whose stubs and expectations it must satisfy. -/

/-- Database errors the tests stub (`sql.ErrNoRows`, `sql.ErrConnDone`). -/
inductive DbErr where
  | noRows
  | connDone
  deriving DecidableEq, Repr

/-- `db.Account` as used by the handler tests. -/
structure Account where
  ID : Int
  Owner : String
  Balance : Int
  Currency : String
  deriving DecidableEq, Repr

/-- HTTP outcomes the delete-account handler produces. -/
inductive HandlerStatus where
  | ok
  | notFound
  | unauthorized
  | internalError
  deriving DecidableEq, Repr

/-- Modelled from the spec: the delete-account handler is not under `src/`
(only `TestDeleteAccount` is).  Per §4.4: load the account by id (`NotFound`
on `sql.ErrNoRows`, independent of auth); compare the account's `Owner` to the
authenticated payload's identity, mismatch → `Unauthorized` (the source maps
it to 401); on match perform the delete.  Per `TestDeleteAccount`, a failing
get or delete other than `ErrNoRows` is an internal error (500). -/
def deleteAccount (getAccount : Int → Except DbErr Account)
    (deleteAccountDB : Int → Option DbErr)
    (payloadUsername : String) (accountID : Int) : HandlerStatus :=
  match getAccount accountID with
  | .error .noRows => .notFound
  | .error _ => .internalError
  | .ok account =>
    if account.Owner ≠ payloadUsername then .unauthorized
    else
      match deleteAccountDB accountID with
      | some _ => .internalError
      | none => .ok

/-! ## Helper lemmas -/

theorem stringsFields_of_length_zero (header : String) (h : header.length = 0) :
    stringsFields header = [] := by
  obtain ⟨data⟩ := header
  simp only [String.length] at h
  rw [List.length_eq_zero] at h
  subst h
  rfl

theorem length_ne_zero_of_stringsFields (header : String) (f0 f1 : String)
    (rest : List String) (hf : stringsFields header = f0 :: f1 :: rest) :
    header.length ≠ 0 := by
  intro h0
  rw [stringsFields_of_length_zero header h0] at hf
  exact List.noConfusion hf

theorem authMiddleware_eq_of_fields (v : String → Except TokenErr Payload)
    (header f0 f1 : String) (rest : List String)
    (hf : stringsFields header = f0 :: f1 :: rest) :
    authMiddleware v header =
      if stringsToLower f0 ≠ authorizationTypeBearer then
        some (.abortWithStatusJSON 401
          ("unsupported authorization type " ++ stringsToLower f0))
      else
        match v f1 with
        | .error _ => none
        | .ok payload => some (.setPayloadAndNext payload) := by
  unfold authMiddleware
  rw [if_neg (length_ne_zero_of_stringsFields header f0 f1 rest hf), hf]

/-! ## Claims -/

/-- C1: the claim says that when the bearer token fails verification the
middleware rejects with 401 carrying the verification error and attaches no
payload.  The code violates this: between `VerifyToken` and the error check it
executes `log.Println(payload.ExpireAt)`, and on every verification failure
`VerifyToken` returns a nil payload, so the selector panics on a nil pointer
(result `none`) and the 401 branch is never reached.  This theorem evaluates
the middleware at such a failing request. -/
theorem authMiddleware_verify_error_panics :
    authMiddleware (fun _ => .error .expired) "bearer sometoken" = none := rfl

/-- C9: the claim says the middleware's error path is total — the read of
`payload.ExpireAt` performed before the error check completes and the request
reaches the 401 rejection branch.  It does not: with a nil payload alongside
the verification error, the field selector is a nil-pointer dereference, so
evaluation panics (`none`) instead of producing any 401 response. -/
theorem authMiddleware_nil_payload_deref :
    authMiddleware (fun _ => .error .invalid) "bearer eyJhbGciOiJIUzUxMiJ9" = none := rfl

/-- C2: for every token whose header claims an algorithm outside the HMAC
family (every ECDSA, RSA, RSA-PSS, EdDSA and "none" token), `VerifyToken`
rejects the token with an error: ECDSA is refused by the key function, and
every other non-HMAC method fails signature verification against the `[]byte`
secret, so the result is `ErrTokenInvalid`. -/
theorem VerifyToken_rejects_non_hmac_alg (m : JWTMaker) (now : Int)
    (alg : Alg) (claims : Payload) (sig : Sig) (h : alg.isHMAC = false) :
    m.VerifyToken now (.wellFormed alg claims sig) = .error .invalid := by
  cases alg <;>
    simp_all [JWTMaker.VerifyToken, ParseWithClaims, JWTMaker.keyFunc,
      verifyWithByteKey, Alg.isHMAC, Alg.isECDSA, VErr.isTokenExpired]

/-- Witness for C2: a concrete RS256 token is rejected. -/
theorem VerifyToken_rejects_non_hmac_alg_witness :
    (JWTMaker.mk "01234567890123456789012345678901").VerifyToken 0
        (.wellFormed .RS256 ⟨1, "alice", 0, 60⟩
          ⟨.RS256, "01234567890123456789012345678901", ⟨1, "alice", 0, 60⟩⟩)
      = .error .invalid :=
  VerifyToken_rejects_non_hmac_alg ⟨"01234567890123456789012345678901"⟩ 0
    .RS256 ⟨1, "alice", 0, 60⟩
    ⟨.RS256, "01234567890123456789012345678901", ⟨1, "alice", 0, 60⟩⟩ (by decide)

/-- C6: constructing a `JWTMaker` from a secret `s` fails if and only if `s`
is shorter than 32 bytes; on failure no maker value exists, so no token can be
issued. -/
theorem NewJWTMaker_weak_key_iff (s : String) :
    (∃ e, NewJWTMaker s = .error e) ↔ s.utf8ByteSize < 32 := by
  unfold NewJWTMaker minSecretKeyLen
  split <;> simp_all

/-- Witness for C6: a 5-byte secret is rejected at construction time. -/
theorem NewJWTMaker_weak_key_iff_witness :
    ∃ e, NewJWTMaker "short" = .error e :=
  (NewJWTMaker_weak_key_iff "short").mpr (by decide)

/-- Counterexample to C3: the code does not return a distinct
signature-failure error.  A token signed with the wrong key and a structurally
malformed token produce the very same generic `ErrTokenInvalid`; no
`TokenSignatureInvalid` or `TokenMalformed` value is distinguished in the
result. -/
theorem VerifyToken_tampered_eq_malformed :
    (JWTMaker.mk "01234567890123456789012345678901").VerifyToken 0
        (.wellFormed .HS512 ⟨1, "alice", 0, 60⟩
          (hmacSign .HS512 "another-key-another-key-another!" ⟨1, "alice", 0, 60⟩))
      = .error .invalid ∧
    (JWTMaker.mk "01234567890123456789012345678901").VerifyToken 0 .malformed
      = .error .invalid :=
  ⟨rfl, rfl⟩

/-- C3 amended: `VerifyToken` distinguishes only expiration.  Every error it
returns is `ErrTokenExpired` or `ErrTokenInvalid`; malformed input, a wrong or
tampered signature, and an unexpected algorithm all surface as the generic
`ErrTokenInvalid`, while an authentic token past its expiry yields
`ErrTokenExpired`. -/
theorem VerifyToken_error_taxonomy (m : JWTMaker) (now : Int) :
    (∀ s e, m.VerifyToken now s = .error e → e = .expired ∨ e = .invalid) ∧
    (m.VerifyToken now .malformed = .error .invalid) ∧
    (∀ alg claims sig, sig ≠ hmacSign alg m.secretKey claims →
      m.VerifyToken now (.wellFormed alg claims sig) = .error .invalid) ∧
    (∀ claims, claims.ExpireAt < now →
      m.VerifyToken now
          (.wellFormed .HS512 claims (hmacSign .HS512 m.secretKey claims))
        = .error .expired) := by
  refine ⟨?_, rfl, ?_, ?_⟩
  · intro s e h
    unfold JWTMaker.VerifyToken at h
    cases hp : ParseWithClaims m.keyFunc now s with
    | error verr =>
      rw [hp] at h
      dsimp only at h
      by_cases hex : verr.isTokenExpired = true
      · rw [if_pos hex] at h
        cases h
        exact Or.inl rfl
      · rw [if_neg hex] at h
        cases h
        exact Or.inr rfl
    | ok payload =>
      rw [hp] at h
      exact Except.noConfusion h
  · intro alg claims sig hne
    cases alg <;>
      simp_all [JWTMaker.VerifyToken, ParseWithClaims, JWTMaker.keyFunc,
        verifyWithByteKey, Alg.isHMAC, Alg.isECDSA, VErr.isTokenExpired]
  · intro claims hlt
    simp [JWTMaker.VerifyToken, ParseWithClaims, JWTMaker.keyFunc,
      verifyWithByteKey, Alg.isHMAC, Alg.isECDSA, VErr.isTokenExpired,
      Payload.Valid, hlt]

/-- Witness for C3 amended: a malformed token yields the generic error. -/
theorem VerifyToken_error_taxonomy_witness :
    (JWTMaker.mk "01234567890123456789012345678901").VerifyToken 0 .malformed
      = .error .invalid :=
  (VerifyToken_error_taxonomy ⟨"01234567890123456789012345678901"⟩ 0).2.1

/-- Counterexample to C4: the claim quantifies over every identity, but for
the empty identity (and a positive duration) token creation does not succeed:
payload creation fails with the `InvalidIdentity` error. -/
theorem CreateToken_empty_identity_fails :
    (JWTMaker.mk "01234567890123456789012345678901").CreateToken "" 60 0 1
      = .error .invalidIdentity ∧ (0 : Int) < 60 :=
  ⟨rfl, by decide⟩

/-- C4 amended: for every non-empty identity `u` and duration `d > 0`,
`CreateToken` succeeds, and `VerifyToken` run immediately (same instant) on
the produced token returns the very payload, whose identity is `u` and on
which `Valid()` succeeds. -/
theorem CreateToken_VerifyToken_roundtrip (m : JWTMaker) (u : String)
    (d now : Int) (freshId : Nat) (hu : u ≠ "") (hd : 0 < d) :
    ∃ tok payload,
      m.CreateToken u d now freshId = .ok (tok, payload) ∧
      m.VerifyToken now tok = .ok payload ∧
      payload.Username = u ∧
      payload.Valid now = none := by
  have hlt : ¬((⟨freshId, u, now, now + d⟩ : Payload).ExpireAt < now) := by
    simp only []
    omega
  refine ⟨.wellFormed .HS512 ⟨freshId, u, now, now + d⟩
      (hmacSign .HS512 m.secretKey ⟨freshId, u, now, now + d⟩),
    ⟨freshId, u, now, now + d⟩, ?_, ?_, rfl, ?_⟩
  · simp [JWTMaker.CreateToken, NewPayload, hu]
  · simp [JWTMaker.VerifyToken, ParseWithClaims, JWTMaker.keyFunc,
      verifyWithByteKey, Alg.isHMAC, Alg.isECDSA, Payload.Valid, hlt]
  · simp [Payload.Valid, hlt]

/-- Witness for C4 amended: a concrete round trip. -/
theorem CreateToken_VerifyToken_roundtrip_witness :
    ∃ tok payload,
      (JWTMaker.mk "01234567890123456789012345678901").CreateToken
          "alice" 60 1000 7 = .ok (tok, payload) ∧
      (JWTMaker.mk "01234567890123456789012345678901").VerifyToken 1000 tok
        = .ok payload ∧
      payload.Username = "alice" ∧
      payload.Valid 1000 = none :=
  CreateToken_VerifyToken_roundtrip ⟨"01234567890123456789012345678901"⟩
    "alice" 60 1000 7 (by decide) (by decide)

/-- C5: a token created with a negative duration `d < 0` fails verification
(at creation time or later), and the error is exactly `ErrTokenExpired`, not
the generic `ErrTokenInvalid`. -/
theorem VerifyToken_negative_duration_expired (m : JWTMaker) (u : String)
    (d now now2 : Int) (freshId : Nat) (hu : u ≠ "") (hd : d < 0)
    (hle : now ≤ now2) :
    ∃ tok payload,
      m.CreateToken u d now freshId = .ok (tok, payload) ∧
      m.VerifyToken now2 tok = .error .expired := by
  have hlt : (⟨freshId, u, now, now + d⟩ : Payload).ExpireAt < now2 := by
    simp only []
    omega
  refine ⟨.wellFormed .HS512 ⟨freshId, u, now, now + d⟩
      (hmacSign .HS512 m.secretKey ⟨freshId, u, now, now + d⟩),
    ⟨freshId, u, now, now + d⟩, ?_, ?_⟩
  · simp [JWTMaker.CreateToken, NewPayload, hu]
  · simp [JWTMaker.VerifyToken, ParseWithClaims, JWTMaker.keyFunc,
      verifyWithByteKey, Alg.isHMAC, Alg.isECDSA, VErr.isTokenExpired,
      Payload.Valid, hlt]

/-- Witness for C5: duration `-60` at a concrete instant. -/
theorem VerifyToken_negative_duration_expired_witness :
    ∃ tok payload,
      (JWTMaker.mk "01234567890123456789012345678901").CreateToken
          "alice" (-60) 1000 7 = .ok (tok, payload) ∧
      (JWTMaker.mk "01234567890123456789012345678901").VerifyToken 1000 tok
        = .error .expired :=
  VerifyToken_negative_duration_expired ⟨"01234567890123456789012345678901"⟩
    "alice" (-60) 1000 1000 7 (by decide) (by decide) (by decide)

/-- Counterexample to C7: the scheme-check rejection does not carry the error
"unsupported authorization type" verbatim — the code formats the offending
(lower-cased) scheme into the message, so the header `"OAuth xyz"` is rejected
with "unsupported authorization type oauth". -/
theorem authMiddleware_scheme_message_appends_type :
    authMiddleware (fun _ => .error .invalid) "OAuth xyz"
      = some (.abortWithStatusJSON 401 "unsupported authorization type oauth") ∧
    "unsupported authorization type oauth" ≠ "unsupported authorization type" :=
  ⟨rfl, by decide⟩

/-- C7 amended: the middleware applies its checks in order, each rejection a
terminal 401: an absent/empty header → "authorization header not provided";
fewer than two whitespace fields → "invalid authorization format"; lower-cased
first field ≠ "bearer" → "unsupported authorization type " followed by that
lower-cased field; and a first field lower-casing to "bearer" (any case
variant) passes the scheme check, handing the second field to `VerifyToken`. -/
theorem authMiddleware_rejection_order (v : String → Except TokenErr Payload)
    (header : String) :
    (header.length = 0 →
      authMiddleware v header
        = some (.abortWithStatusJSON 401 "authorization header not provided")) ∧
    (header.length ≠ 0 → (stringsFields header).length < 2 →
      authMiddleware v header
        = some (.abortWithStatusJSON 401 "invalid authorization format")) ∧
    (∀ f0 f1 rest, stringsFields header = f0 :: f1 :: rest →
      stringsToLower f0 ≠ authorizationTypeBearer →
      authMiddleware v header
        = some (.abortWithStatusJSON 401
            ("unsupported authorization type " ++ stringsToLower f0))) ∧
    (∀ f0 f1 rest, stringsFields header = f0 :: f1 :: rest →
      stringsToLower f0 = authorizationTypeBearer →
      authMiddleware v header
        = match v f1 with
          | .error _ => none
          | .ok payload => some (.setPayloadAndNext payload)) := by
  refine ⟨?_, ?_, ?_, ?_⟩
  · intro h0
    unfold authMiddleware
    rw [if_pos h0]
  · intro hne hlt
    unfold authMiddleware
    rw [if_neg hne]
    cases hf : stringsFields header with
    | nil => rfl
    | cons f0 tl =>
      cases tl with
      | nil => rfl
      | cons f1 rest =>
        rw [hf] at hlt
        simp at hlt
        omega
  · intro f0 f1 rest hf hb
    rw [authMiddleware_eq_of_fields v header f0 f1 rest hf, if_pos hb]
  · intro f0 f1 rest hf hb
    rw [authMiddleware_eq_of_fields v header f0 f1 rest hf,
      if_neg (show ¬stringsToLower f0 ≠ authorizationTypeBearer from fun hc => hc hb)]

/-- Witness for C7 amended: the scheme check fires on `"OAuth xyz"` with the
offending type appended to the message. -/
theorem authMiddleware_rejection_order_witness :
    authMiddleware (fun _ => .error .expired) "OAuth xyz"
      = some (.abortWithStatusJSON 401 "unsupported authorization type oauth") :=
  (authMiddleware_rejection_order (fun _ => .error .expired) "OAuth xyz").2.2.1
    "OAuth" "xyz" [] (by decide) (by decide)

/-- C10: for every header splitting into two or more whitespace fields whose
first field lower-cases to "bearer", the middleware accepts the format and
verifies exactly the second field; the result does not depend on any field
after the second. -/
theorem authMiddleware_uses_second_field (v : String → Except TokenErr Payload)
    (header f0 f1 : String) (rest : List String)
    (hf : stringsFields header = f0 :: f1 :: rest)
    (hb : stringsToLower f0 = authorizationTypeBearer) :
    authMiddleware v header
      = match v f1 with
        | .error _ => none
        | .ok payload => some (.setPayloadAndNext payload) := by
  rw [authMiddleware_eq_of_fields v header f0 f1 rest hf,
    if_neg (show ¬stringsToLower f0 ≠ authorizationTypeBearer from fun hc => hc hb)]

/-- Witness for C10: a three-field header with a case-variant scheme; the
token verified is the second field and the third is ignored. -/
theorem authMiddleware_uses_second_field_witness :
    authMiddleware
        (fun t => if t = "tok" then .ok ⟨1, "alice", 0, 60⟩ else .error .invalid)
        "Bearer tok extra"
      = some (.setPayloadAndNext ⟨1, "alice", 0, 60⟩) :=
  authMiddleware_uses_second_field
    (fun t => if t = "tok" then .ok ⟨1, "alice", 0, 60⟩ else .error .invalid)
    "Bearer tok extra" "Bearer" "tok" ["extra"] (by decide) (by decide)

/-- C8: the delete-account handler first loads the account and signals
`NotFound` when it is absent, whatever the authenticated identity; when the
account is found, the operation proceeds exactly when the payload's identity
equals the account's owner, and an identity differing from the owner is
rejected even though the token behind it was valid. -/
theorem deleteAccount_ownership (getAccount : Int → Except DbErr Account)
    (deleteAccountDB : Int → Option DbErr) (identity : String) (accountID : Int) :
    (getAccount accountID = .error .noRows →
      deleteAccount getAccount deleteAccountDB identity accountID = .notFound) ∧
    (∀ account, getAccount accountID = .ok account → account.Owner ≠ identity →
      deleteAccount getAccount deleteAccountDB identity accountID
        = .unauthorized) ∧
    (∀ account, getAccount accountID = .ok account → account.Owner = identity →
      deleteAccount getAccount deleteAccountDB identity accountID
        = match deleteAccountDB accountID with
          | some _ => .internalError
          | none => .ok) := by
  refine ⟨?_, ?_, ?_⟩
  · intro h
    unfold deleteAccount
    rw [h]
  · intro account h hne
    unfold deleteAccount
    rw [h]
    dsimp only
    rw [if_pos hne]
  · intro account h howner
    unfold deleteAccount
    rw [h]
    dsimp only
    rw [if_neg (show ¬account.Owner ≠ identity from fun hc => hc howner)]

/-- Witness for C8: the owner deletes their own account and the operation
proceeds. -/
theorem deleteAccount_ownership_witness :
    deleteAccount (fun _ => .ok ⟨5, "alice", 100, "USD"⟩) (fun _ => none)
        "alice" 5
      = .ok :=
  (deleteAccount_ownership (fun _ => .ok ⟨5, "alice", 100, "USD"⟩)
      (fun _ => none) "alice" 5).2.2
    ⟨5, "alice", 100, "USD"⟩ rfl rfl

end GoBank
